import Mathlib

/-!
Verification of the EdgeML recurrent-cell library (`tf/edgeml/graph/rnn.py`).

The tensor substrate (TensorFlow) is external to the repository; we model a
2-D float tensor as a pair of dimensions together with an entry function over
the rationals, with the broadcasting rule used by the library (a dimension of
size 1 broadcasts against any other dimension).  The transcendental
activations `math_ops.tanh` and `math_ops.sigmoid` are supplied by that
external substrate, so they are abstracted as an arbitrary pair of scalar
functions; the piecewise-linear operations (`relu`, `quantTanh`, `quantSigm`)
are defined concretely, as in the source.
-/

/-- A 2-D tensor: row and column counts plus an entry function.
Models a `tf` tensor of shape `[rows, cols]`. -/
@[ext]
structure Tensor where
  rows : ℕ
  cols : ℕ
  entry : ℕ → ℕ → ℚ

/-- A `[1, 1]` tensor holding a single scalar (e.g. a float literal such as
`1.0` in the source, or the `zeta`, `nu`, `alpha`, `beta` variables). -/
def Tensor.scalar (c : ℚ) : Tensor := ⟨1, 1, fun _ _ => c⟩

/-- Elementwise application of a scalar function (a TF unary elementwise op). -/
def Tensor.map (f : ℚ → ℚ) (A : Tensor) : Tensor :=
  ⟨A.rows, A.cols, fun i j => f (A.entry i j)⟩

/-- Result dimension of broadcasting two dimensions: a dimension of size 1
adopts the other side's size. -/
def bdim (a b : ℕ) : ℕ := if a = 1 then b else a

/-- Elementwise binary operation with TF broadcasting over both axes. -/
def Tensor.bop (f : ℚ → ℚ → ℚ) (A B : Tensor) : Tensor :=
  ⟨bdim A.rows B.rows, bdim A.cols B.cols, fun i j =>
    f (A.entry (if A.rows = 1 then 0 else i) (if A.cols = 1 then 0 else j))
      (B.entry (if B.rows = 1 then 0 else i) (if B.cols = 1 then 0 else j))⟩

instance : Add Tensor := ⟨Tensor.bop (fun a b => a + b)⟩

instance : Sub Tensor := ⟨Tensor.bop (fun a b => a - b)⟩

instance : Mul Tensor := ⟨Tensor.bop (fun a b => a * b)⟩

/-- Matrix product (`math_ops.matmul`): the inner sum runs over the left
factor's column count. -/
def Tensor.matmul (A B : Tensor) : Tensor :=
  ⟨A.rows, B.cols, fun i j => ∑ k ∈ Finset.range A.cols, A.entry i k * B.entry k j⟩

theorem Tensor.add_def (A B : Tensor) : A + B = Tensor.bop (fun a b => a + b) A B := rfl

theorem Tensor.sub_def (A B : Tensor) : A - B = Tensor.bop (fun a b => a - b) A B := rfl

theorem Tensor.mul_def (A B : Tensor) : A * B = Tensor.bop (fun a b => a * b) A B := rfl

theorem bdim_self (a : ℕ) : bdim a a = a := by
  unfold bdim; split <;> rfl

theorem bdim_one_right (a : ℕ) : bdim a 1 = a := by
  unfold bdim; split <;> omega

theorem bdim_one_left (b : ℕ) : bdim 1 b = b := by
  unfold bdim; simp

theorem bidx_eq {m i : ℕ} (h : i < m) : (if m = 1 then 0 else i) = i := by
  split <;> omega

theorem Tensor.bop_rows (f : ℚ → ℚ → ℚ) (A B : Tensor) :
    (Tensor.bop f A B).rows = bdim A.rows B.rows := rfl

theorem Tensor.bop_cols (f : ℚ → ℚ → ℚ) (A B : Tensor) :
    (Tensor.bop f A B).cols = bdim A.cols B.cols := rfl

theorem Tensor.map_rows (f : ℚ → ℚ) (A : Tensor) : (A.map f).rows = A.rows := rfl

theorem Tensor.map_cols (f : ℚ → ℚ) (A : Tensor) : (A.map f).cols = A.cols := rfl

theorem Tensor.matmul_rows (A B : Tensor) : (A.matmul B).rows = A.rows := rfl

theorem Tensor.matmul_cols (A B : Tensor) : (A.matmul B).cols = B.cols := rfl

theorem Tensor.bop_entry_same (f : ℚ → ℚ → ℚ) (A B : Tensor) (i j : ℕ)
    (hr : B.rows = A.rows) (hc : B.cols = A.cols) (hi : i < A.rows) (hj : j < A.cols) :
    (Tensor.bop f A B).entry i j = f (A.entry i j) (B.entry i j) := by
  have h3 : (if B.rows = 1 then 0 else i) = i := bidx_eq (by rw [hr]; exact hi)
  have h4 : (if B.cols = 1 then 0 else j) = j := bidx_eq (by rw [hc]; exact hj)
  simp only [Tensor.bop, bidx_eq hi, bidx_eq hj, h3, h4]

theorem Tensor.bop_entry_rowvec (f : ℚ → ℚ → ℚ) (A B : Tensor) (i j : ℕ)
    (hr : B.rows = 1) (hc : B.cols = A.cols) (hi : i < A.rows) (hj : j < A.cols) :
    (Tensor.bop f A B).entry i j = f (A.entry i j) (B.entry 0 j) := by
  have h4 : (if B.cols = 1 then 0 else j) = j := bidx_eq (by rw [hc]; exact hj)
  simp only [Tensor.bop, bidx_eq hi, bidx_eq hj, if_pos hr, h4]

theorem Tensor.bop_entry_scalar_right (f : ℚ → ℚ → ℚ) (A B : Tensor) (i j : ℕ)
    (hr : B.rows = 1) (hc : B.cols = 1) (hi : i < A.rows) (hj : j < A.cols) :
    (Tensor.bop f A B).entry i j = f (A.entry i j) (B.entry 0 0) := by
  simp only [Tensor.bop, bidx_eq hi, bidx_eq hj, if_pos hr, if_pos hc]

theorem Tensor.bop_entry_scalar_left (f : ℚ → ℚ → ℚ) (A B : Tensor) (i j : ℕ)
    (hr : A.rows = 1) (hc : A.cols = 1) (hi : i < B.rows) (hj : j < B.cols) :
    (Tensor.bop f A B).entry i j = f (A.entry 0 0) (B.entry i j) := by
  simp only [Tensor.bop, bidx_eq hi, bidx_eq hj, if_pos hr, if_pos hc]

theorem Tensor.matmul_assoc (A B C : Tensor) :
    (A.matmul B).matmul C = A.matmul (B.matmul C) := by
  ext i j
  · rfl
  · rfl
  · simp only [Tensor.matmul, Tensor.matmul_cols, Finset.sum_mul, Finset.mul_sum,
      mul_assoc]
    exact Finset.sum_comm

/-- The elementwise activations supplied by the external numeric substrate
(`math_ops.tanh` and `math_ops.sigmoid`). -/
structure MathOps where
  tanh : ℚ → ℚ
  sigmoid : ℚ → ℚ

/-- `gen_non_linearity(A, non_linearity)` from `rnn.py`: dispatches on the
activation name, falling back to `tanh` for unrecognized names.  `relu`,
`quantTanh` and `quantSigm` are built from `gen_math_ops.maximum` and
`gen_math_ops.minimum`, modelled by `max`/`min`. -/
def gen_non_linearity (ops : MathOps) (A : Tensor) (non_linearity : String) : Tensor :=
  if non_linearity = "tanh" then A.map ops.tanh
  else if non_linearity = "sigmoid" then A.map ops.sigmoid
  else if non_linearity = "relu" then A.map (fun x => max x 0)
  else if non_linearity = "quantTanh" then A.map (fun x => max (min x 1) (-1))
  else if non_linearity = "quantSigm" then A.map (fun x => max (min ((x + 1) / 2) 1) 0)
  else A.map ops.tanh

/-- Scalar (per-entry) reading of `gen_non_linearity`. -/
def gen_non_linearityS (ops : MathOps) (a : ℚ) (non_linearity : String) : ℚ :=
  if non_linearity = "tanh" then ops.tanh a
  else if non_linearity = "sigmoid" then ops.sigmoid a
  else if non_linearity = "relu" then max a 0
  else if non_linearity = "quantTanh" then max (min a 1) (-1)
  else if non_linearity = "quantSigm" then max (min ((a + 1) / 2) 1) 0
  else ops.tanh a

theorem gen_non_linearity_entry (ops : MathOps) (A : Tensor) (nl : String) (i j : ℕ) :
    (gen_non_linearity ops A nl).entry i j = gen_non_linearityS ops (A.entry i j) nl := by
  unfold gen_non_linearity gen_non_linearityS Tensor.map
  repeat' split
  all_goals rfl

theorem gen_non_linearity_rows (ops : MathOps) (A : Tensor) (nl : String) :
    (gen_non_linearity ops A nl).rows = A.rows := by
  unfold gen_non_linearity
  repeat' split
  all_goals rfl

theorem gen_non_linearity_cols (ops : MathOps) (A : Tensor) (nl : String) :
    (gen_non_linearity ops A nl).cols = A.cols := by
  unfold gen_non_linearity
  repeat' split
  all_goals rfl

/-- The spec's `clip(x, lo, hi)` (numpy semantics): clamp `x` into `[lo, hi]`. -/
def clip (x lo hi : ℚ) : ℚ := min (max x lo) hi

/-- The weight configuration of one projection (input-to-hidden or
hidden-to-hidden): a single dense matrix when the rank is `None`
(constructor `full`), or the pair of factor matrices when a rank was set
(constructor `lowRank`), matching the two branches of `call`. -/
inductive ProjParams where
  | full (W : Tensor)
  | lowRank (M1 M2 : Tensor)

/-- The projection computed by `call` for each branch: `matmul(x, W)` in the
full-rank case, `matmul(matmul(x, M1), M2)` in the low-rank case. -/
def ProjParams.apply (pp : ProjParams) (x : Tensor) : Tensor :=
  match pp with
  | .full W => x.matmul W
  | .lowRank M1 M2 => (x.matmul M1).matmul M2

/-- The weight tensors owned by one projection, in the order `getVars`
emits them. -/
def ProjParams.vars : ProjParams → List Tensor
  | .full W => [W]
  | .lowRank M1 M2 => [M1, M2]

/-- The projection's parameters agree with the cell's rank setting: `full`
corresponds to rank `None`, `lowRank` to a rank having been set. -/
def ProjParams.matchesRank : ProjParams → Option ℕ → Prop
  | .full _, none => True
  | .lowRank _ _, some _ => True
  | _, _ => False

/-- Well-formed shapes for a projection from dimension `d` to dimension `n`:
`W : [d, n]`, or `M1 : [d, r]`, `M2 : [r, n]` for the shared inner rank. -/
def ProjParams.wf (pp : ProjParams) (d n : ℕ) : Prop :=
  match pp with
  | .full W => W.rows = d ∧ W.cols = n
  | .lowRank M1 M2 => M1.rows = d ∧ M2.cols = n ∧ M1.cols = M2.rows

theorem ProjParams.apply_rows (pp : ProjParams) (x : Tensor) :
    (pp.apply x).rows = x.rows := by
  cases pp <;> rfl

theorem ProjParams.apply_cols (pp : ProjParams) (d n : ℕ) (h : pp.wf d n) (x : Tensor) :
    (pp.apply x).cols = n := by
  cases pp with
  | full W => exact h.2
  | lowRank M1 M2 => exact h.2.1

/-- Configuration of `FastGRNNCell` as stored by `__init__` (defaults from
the source). -/
structure FastGRNNCell where
  hidden_size : ℕ
  gate_non_linearity : String := "sigmoid"
  update_non_linearity : String := "tanh"
  wRank : Option ℕ := none
  uRank : Option ℕ := none
  zetaInit : ℚ := 1
  nuInit : ℚ := -4
  name : String := "FastGRNN"

/-- `self._num_weight_matrices`: starts as `[1, 1]`, incremented once for
each rank that is not `None`. -/
def FastGRNNCell.num_weight_matrices (c : FastGRNNCell) : ℕ × ℕ :=
  (1 + (if c.wRank.isSome then 1 else 0), 1 + (if c.uRank.isSome then 1 else 0))

/-- `cellType` returns the literal string tag used for dispatch. -/
def FastGRNNCell.cellType (_ : FastGRNNCell) : String := "FastGRNN"

/-- The variable scope opened by `call`: `self._name + "/FastGRNNcell"`. -/
def FastGRNNCell.scopeName (c : FastGRNNCell) : String := c.name ++ "/FastGRNNcell"

/-- The parameter tensors of a `FastGRNNCell` (created on first `call`):
input projection, recurrent projection, the two bias vectors `B_g`, `B_h`
(shape `[1, hidden]`), and the scalars `zeta`, `nu` (shape `[1, 1]`). -/
structure FastGRNNParams where
  Wp : ProjParams
  Up : ProjParams
  bias_gate : Tensor
  bias_update : Tensor
  zeta : Tensor
  nu : Tensor

/-- `pre_comp = wComp + uComp` in `FastGRNNCell.call`. -/
def FastGRNNCell.preComp (p : FastGRNNParams) (inputs state : Tensor) : Tensor :=
  p.Wp.apply inputs + p.Up.apply state

/-- `z = gen_non_linearity(pre_comp + self.bias_gate, self._gate_non_linearity)`. -/
def FastGRNNCell.gateZ (ops : MathOps) (c : FastGRNNCell) (p : FastGRNNParams)
    (inputs state : Tensor) : Tensor :=
  gen_non_linearity ops (FastGRNNCell.preComp p inputs state + p.bias_gate)
    c.gate_non_linearity

/-- `c = gen_non_linearity(pre_comp + self.bias_update, self._update_non_linearity)`. -/
def FastGRNNCell.candidate (ops : MathOps) (c : FastGRNNCell) (p : FastGRNNParams)
    (inputs state : Tensor) : Tensor :=
  gen_non_linearity ops (FastGRNNCell.preComp p inputs state + p.bias_update)
    c.update_non_linearity

/-- `new_h = z * state + (sigmoid(zeta) * (1.0 - z) + sigmoid(nu)) * c`. -/
def FastGRNNCell.newState (ops : MathOps) (c : FastGRNNCell) (p : FastGRNNParams)
    (inputs state : Tensor) : Tensor :=
  FastGRNNCell.gateZ ops c p inputs state * state +
    (p.zeta.map ops.sigmoid * (Tensor.scalar 1 - FastGRNNCell.gateZ ops c p inputs state) +
      p.nu.map ops.sigmoid) * FastGRNNCell.candidate ops c p inputs state

/-- `FastGRNNCell.call(inputs, state)`: returns `(new_h, new_h)`. -/
def FastGRNNCell.call (ops : MathOps) (c : FastGRNNCell) (p : FastGRNNParams)
    (inputs state : Tensor) : Tensor × Tensor :=
  (FastGRNNCell.newState ops c p inputs state, FastGRNNCell.newState ops c p inputs state)

/-- `FastGRNNCell.getVars`: input weight(s), recurrent weight(s), the two
biases, then the two scalars. -/
def FastGRNNCell.getVars (p : FastGRNNParams) : List Tensor :=
  p.Wp.vars ++ p.Up.vars ++ [p.bias_gate, p.bias_update] ++ [p.zeta, p.nu]

/-- Configuration of `FastRNNCell` as stored by `__init__` (defaults from
the source). -/
structure FastRNNCell where
  hidden_size : ℕ
  update_non_linearity : String := "tanh"
  wRank : Option ℕ := none
  uRank : Option ℕ := none
  alphaInit : ℚ := -3
  betaInit : ℚ := 3
  name : String := "FastRNN"

/-- `self._num_weight_matrices` of `FastRNNCell`. -/
def FastRNNCell.num_weight_matrices (c : FastRNNCell) : ℕ × ℕ :=
  (1 + (if c.wRank.isSome then 1 else 0), 1 + (if c.uRank.isSome then 1 else 0))

/-- `cellType` returns the literal string tag used for dispatch. -/
def FastRNNCell.cellType (_ : FastRNNCell) : String := "FastRNN"

/-- The variable scope opened by `call`: `self._name + "/FastRNNcell"`. -/
def FastRNNCell.scopeName (c : FastRNNCell) : String := c.name ++ "/FastRNNcell"

/-- The parameter tensors of a `FastRNNCell`: the two projections, the bias
vector `B_h` (shape `[1, hidden]`), and the scalars `alpha`, `beta`
(shape `[1, 1]`). -/
structure FastRNNParams where
  Wp : ProjParams
  Up : ProjParams
  bias_update : Tensor
  alpha : Tensor
  beta : Tensor

/-- `pre_comp = wComp + uComp` in `FastRNNCell.call`. -/
def FastRNNCell.preComp (p : FastRNNParams) (inputs state : Tensor) : Tensor :=
  p.Wp.apply inputs + p.Up.apply state

/-- `c = gen_non_linearity(pre_comp + self.bias_update, self._update_non_linearity)`. -/
def FastRNNCell.candidate (ops : MathOps) (c : FastRNNCell) (p : FastRNNParams)
    (inputs state : Tensor) : Tensor :=
  gen_non_linearity ops (FastRNNCell.preComp p inputs state + p.bias_update)
    c.update_non_linearity

/-- `new_h = sigmoid(beta) * state + sigmoid(alpha) * c`. -/
def FastRNNCell.newState (ops : MathOps) (c : FastRNNCell) (p : FastRNNParams)
    (inputs state : Tensor) : Tensor :=
  p.beta.map ops.sigmoid * state +
    p.alpha.map ops.sigmoid * FastRNNCell.candidate ops c p inputs state

/-- `FastRNNCell.call(inputs, state)`: returns `(new_h, new_h)`. -/
def FastRNNCell.call (ops : MathOps) (c : FastRNNCell) (p : FastRNNParams)
    (inputs state : Tensor) : Tensor × Tensor :=
  (FastRNNCell.newState ops c p inputs state, FastRNNCell.newState ops c p inputs state)

/-- `FastRNNCell.getVars`: input weight(s), recurrent weight(s), the bias,
then the two scalars. -/
def FastRNNCell.getVars (p : FastRNNParams) : List Tensor :=
  p.Wp.vars ++ p.Up.vars ++ [p.bias_update] ++ [p.alpha, p.beta]

/-- `EMI_GRU.addBaseAssignOps(initVarList)`: asserts `len(initVarList) == 2`
(modelled as the `AssertionError` branch), then reads `initVarList[0]` through
`initVarList[3]` to build the four assign ops; an out-of-range read is the
`IndexError` branch. -/
def EMI_GRU.addBaseAssignOps {α : Type} (initVarList : List α) :
    Except String (α × α × α × α) :=
  if initVarList.length = 2 then
    match initVarList[0]?, initVarList[1]?, initVarList[2]?, initVarList[3]? with
    | some kernel1, some bias1, some kernel2, some bias2 =>
        Except.ok (kernel1, bias1, kernel2, bias2)
    | _, _, _, _ => Except.error "IndexError"
  else Except.error "AssertionError"

/-- `EMI_FastRNN.addBaseAssignOps(initVarList)`: no length check; reads one or
two input weights, one or two recurrent weights (tracking `index`), then
`alpha`, `beta`, `bias` at `index`, `index+1`, `index+2`.  Returns the values
read, in order; an out-of-range read is `none`. -/
def EMI_FastRNN.assignReads {α : Type} (wRank uRank : Option ℕ) (l : List α) :
    Option (List α) := do
  let (ws, i1) ← match wRank with
    | none => do
        let w ← l[0]?
        pure ([w], 1)
    | some _ => do
        let w1 ← l[0]?
        let w2 ← l[1]?
        pure ([w1, w2], 2)
  let (us, i2) ← match uRank with
    | none => do
        let u ← l[i1]?
        pure ([u], i1 + 1)
    | some _ => do
        let u1 ← l[i1]?
        let u2 ← l[i1 + 1]?
        pure ([u1, u2], i1 + 2)
  let alpha ← l[i2]?
  let beta ← l[i2 + 1]?
  let bias ← l[i2 + 2]?
  pure (ws ++ us ++ [alpha, beta, bias])

/-- `EMI_FastRNN.addBaseAssignOps` with the Python exception surfaced. -/
def EMI_FastRNN.addBaseAssignOps {α : Type} (wRank uRank : Option ℕ) (l : List α) :
    Except String (List α) :=
  match EMI_FastRNN.assignReads wRank uRank l with
  | some ops => Except.ok ops
  | none => Except.error "IndexError"

/-- `EMI_FastGRNN.addBaseAssignOps(initVarList)`: no length check; reads the
weight tensors as in `EMI_FastRNN`, then `zeta`, `nu`, `gate_bias`,
`update_bias` at `index` through `index+3`. -/
def EMI_FastGRNN.assignReads {α : Type} (wRank uRank : Option ℕ) (l : List α) :
    Option (List α) := do
  let (ws, i1) ← match wRank with
    | none => do
        let w ← l[0]?
        pure ([w], 1)
    | some _ => do
        let w1 ← l[0]?
        let w2 ← l[1]?
        pure ([w1, w2], 2)
  let (us, i2) ← match uRank with
    | none => do
        let u ← l[i1]?
        pure ([u], i1 + 1)
    | some _ => do
        let u1 ← l[i1]?
        let u2 ← l[i1 + 1]?
        pure ([u1, u2], i1 + 2)
  let zeta ← l[i2]?
  let nu ← l[i2 + 1]?
  let gate_bias ← l[i2 + 2]?
  let update_bias ← l[i2 + 3]?
  pure (ws ++ us ++ [zeta, nu, gate_bias, update_bias])

/-- `EMI_FastGRNN.addBaseAssignOps` with the Python exception surfaced. -/
def EMI_FastGRNN.addBaseAssignOps {α : Type} (wRank uRank : Option ℕ) (l : List α) :
    Except String (List α) :=
  match EMI_FastGRNN.assignReads wRank uRank l with
  | some ops => Except.ok ops
  | none => Except.error "IndexError"

/-- Identity activations standing in for the external substrate in witnesses. -/
def idOps : MathOps := ⟨fun x => x, fun x => x⟩

/-- C5: for every input tensor, the nonlinearity selector with name
"quantTanh" returns `clip(x, -1, 1)` elementwise, and with name "quantSigm"
returns `clip((x+1)/2, 0, 1)` elementwise. -/
theorem quant_nonlinearities_clip (ops : MathOps) (A : Tensor) :
    gen_non_linearity ops A "quantTanh" = A.map (fun x => clip x (-1) 1) ∧
    gen_non_linearity ops A "quantSigm" = A.map (fun x => clip ((x + 1) / 2) 0 1) := by
  constructor
  · unfold gen_non_linearity
    rw [if_neg (by decide), if_neg (by decide), if_neg (by decide), if_pos rfl]
    unfold Tensor.map clip
    congr 1
    funext i j
    dsimp only
    rw [max_min_distrib_right]
    norm_num
  · unfold gen_non_linearity
    rw [if_neg (by decide), if_neg (by decide), if_neg (by decide), if_neg (by decide),
      if_pos rfl]
    unfold Tensor.map clip
    congr 1
    funext i j
    dsimp only
    rw [max_min_distrib_right]
    norm_num

/-- C8: for every activation name outside the five recognized ones, the
selector silently falls back to `tanh` of its input. -/
theorem unknown_nonlinearity_tanh_fallback (non_linearity : String)
    (h : non_linearity ∉ (["tanh", "sigmoid", "relu", "quantTanh", "quantSigm"] : List String))
    (ops : MathOps) (A : Tensor) :
    gen_non_linearity ops A non_linearity = A.map ops.tanh := by
  simp only [List.mem_cons, List.not_mem_nil, or_false, not_or] at h
  obtain ⟨h1, h2, h3, h4, h5⟩ := h
  unfold gen_non_linearity
  rw [if_neg h1, if_neg h2, if_neg h3, if_neg h4, if_neg h5]

/-- Witness for C8 at the unrecognized name "softsign". -/
theorem unknown_nonlinearity_tanh_fallback_witness :
    ("softsign" ∉ (["tanh", "sigmoid", "relu", "quantTanh", "quantSigm"] : List String)) ∧
    gen_non_linearity idOps (Tensor.scalar 0) "softsign" =
      (Tensor.scalar 0).map idOps.tanh :=
  ⟨by decide, unknown_nonlinearity_tanh_fallback "softsign" (by decide) idOps (Tensor.scalar 0)⟩

/-- C9: `cellType` is the fixed dispatch tag "FastGRNN" / "FastRNN",
independent of the constructor's `name` argument, which only enters the
variable-scope name. -/
theorem cellType_constant :
    (∀ c : FastGRNNCell, FastGRNNCell.cellType c = "FastGRNN") ∧
    (∀ c : FastRNNCell, FastRNNCell.cellType c = "FastRNN") ∧
    (∀ (h : ℕ) (g u : String) (w r : Option ℕ) (z ν : ℚ) (s1 s2 : String),
      FastGRNNCell.cellType ⟨h, g, u, w, r, z, ν, s1⟩ =
          FastGRNNCell.cellType ⟨h, g, u, w, r, z, ν, s2⟩ ∧
        FastGRNNCell.scopeName ⟨h, g, u, w, r, z, ν, s1⟩ = s1 ++ "/FastGRNNcell") ∧
    (∀ (h : ℕ) (u : String) (w r : Option ℕ) (a b : ℚ) (s1 s2 : String),
      FastRNNCell.cellType ⟨h, u, w, r, a, b, s1⟩ =
          FastRNNCell.cellType ⟨h, u, w, r, a, b, s2⟩ ∧
        FastRNNCell.scopeName ⟨h, u, w, r, a, b, s1⟩ = s1 ++ "/FastRNNcell") :=
  ⟨fun _ => rfl, fun _ => rfl, fun _ _ _ _ _ _ _ _ _ => ⟨rfl, rfl⟩,
    fun _ _ _ _ _ _ _ _ => ⟨rfl, rfl⟩⟩

/-- C3: when the low-rank factors multiply out to the full-rank matrices
(`W1 @ W2 = W`, `U1 @ U2 = U`) and all other parameters agree, the low-rank
and full-rank configurations of both cells produce identical step outputs. -/
theorem lowRank_matches_fullRank :
    (∀ (ops : MathOps) (c : FastGRNNCell) (W U W1 W2 U1 U2 bg bu zt nt inputs state : Tensor),
      W1.matmul W2 = W → U1.matmul U2 = U →
      FastGRNNCell.call ops c ⟨.lowRank W1 W2, .lowRank U1 U2, bg, bu, zt, nt⟩ inputs state =
        FastGRNNCell.call ops c ⟨.full W, .full U, bg, bu, zt, nt⟩ inputs state) ∧
    (∀ (ops : MathOps) (c : FastRNNCell) (W U W1 W2 U1 U2 bu al be inputs state : Tensor),
      W1.matmul W2 = W → U1.matmul U2 = U →
      FastRNNCell.call ops c ⟨.lowRank W1 W2, .lowRank U1 U2, bu, al, be⟩ inputs state =
        FastRNNCell.call ops c ⟨.full W, .full U, bu, al, be⟩ inputs state) := by
  constructor
  · intro ops c W U W1 W2 U1 U2 bg bu zt nt inputs state hW hU
    have e1 : (ProjParams.lowRank W1 W2).apply inputs = (ProjParams.full W).apply inputs := by
      simp only [ProjParams.apply, Tensor.matmul_assoc, hW]
    have e2 : (ProjParams.lowRank U1 U2).apply state = (ProjParams.full U).apply state := by
      simp only [ProjParams.apply, Tensor.matmul_assoc, hU]
    simp only [FastGRNNCell.call, FastGRNNCell.newState, FastGRNNCell.gateZ,
      FastGRNNCell.candidate, FastGRNNCell.preComp, e1, e2]
  · intro ops c W U W1 W2 U1 U2 bu al be inputs state hW hU
    have e1 : (ProjParams.lowRank W1 W2).apply inputs = (ProjParams.full W).apply inputs := by
      simp only [ProjParams.apply, Tensor.matmul_assoc, hW]
    have e2 : (ProjParams.lowRank U1 U2).apply state = (ProjParams.full U).apply state := by
      simp only [ProjParams.apply, Tensor.matmul_assoc, hU]
    simp only [FastRNNCell.call, FastRNNCell.newState, FastRNNCell.candidate,
      FastRNNCell.preComp, e1, e2]

/-- Witness for C3 on 1-by-1 tensors whose factors multiply to the full matrices. -/
theorem lowRank_matches_fullRank_witness :
    FastGRNNCell.call idOps ⟨1, "sigmoid", "tanh", some 1, some 1, 1, -4, "FastGRNN"⟩
        ⟨.lowRank (Tensor.scalar 2) (Tensor.scalar 3),
          .lowRank (Tensor.scalar 4) (Tensor.scalar 5),
          Tensor.scalar 1, Tensor.scalar 1, Tensor.scalar 1, Tensor.scalar (-4)⟩
        (Tensor.scalar 1) (Tensor.scalar 0) =
      FastGRNNCell.call idOps ⟨1, "sigmoid", "tanh", some 1, some 1, 1, -4, "FastGRNN"⟩
        ⟨.full ((Tensor.scalar 2).matmul (Tensor.scalar 3)),
          .full ((Tensor.scalar 4).matmul (Tensor.scalar 5)),
          Tensor.scalar 1, Tensor.scalar 1, Tensor.scalar 1, Tensor.scalar (-4)⟩
        (Tensor.scalar 1) (Tensor.scalar 0) :=
  lowRank_matches_fullRank.1 idOps ⟨1, "sigmoid", "tanh", some 1, some 1, 1, -4, "FastGRNN"⟩
    _ _ _ _ _ _ _ _ _ _ _ _ rfl rfl

/-- C4: `FastGRNNCell.getVars` lists input weight(s), then recurrent
weight(s), then the biases, then the scalars; under the configured rank
setting it holds exactly 6 tensors (W, U, B_g, B_h, zeta, nu) when both ranks
are `None`, and exactly 8 (W1, W2, U1, U2, B_g, B_h, zeta, nu) when both are
set. -/
theorem fastGRNN_getVars_layout :
    (∀ p : FastGRNNParams, FastGRNNCell.getVars p =
      p.Wp.vars ++ p.Up.vars ++ [p.bias_gate, p.bias_update] ++ [p.zeta, p.nu]) ∧
    (∀ (c : FastGRNNCell) (p : FastGRNNParams),
      p.Wp.matchesRank c.wRank → p.Up.matchesRank c.uRank →
      (c.wRank = none → c.uRank = none →
        ∃ W U, p.Wp = .full W ∧ p.Up = .full U ∧
          FastGRNNCell.getVars p = [W, U, p.bias_gate, p.bias_update, p.zeta, p.nu] ∧
          (FastGRNNCell.getVars p).length = 6) ∧
      (c.wRank.isSome → c.uRank.isSome →
        ∃ W1 W2 U1 U2, p.Wp = .lowRank W1 W2 ∧ p.Up = .lowRank U1 U2 ∧
          FastGRNNCell.getVars p =
            [W1, W2, U1, U2, p.bias_gate, p.bias_update, p.zeta, p.nu] ∧
          (FastGRNNCell.getVars p).length = 8)) := by
  constructor
  · intro p; rfl
  · intro c p hw hu
    obtain ⟨Wp, Up, bg, bu, zt, nt⟩ := p
    constructor
    · intro hwn hun
      rw [hwn] at hw
      rw [hun] at hu
      cases Wp with
      | lowRank M1 M2 => exact (hw : False).elim
      | full W =>
        cases Up with
        | lowRank M1 M2 => exact (hu : False).elim
        | full U => exact ⟨W, U, rfl, rfl, rfl, rfl⟩
    · intro hws hus
      obtain ⟨wr, hwr⟩ := Option.isSome_iff_exists.mp hws
      obtain ⟨ur, hur⟩ := Option.isSome_iff_exists.mp hus
      rw [hwr] at hw
      rw [hur] at hu
      cases Wp with
      | full W => exact (hw : False).elim
      | lowRank W1 W2 =>
        cases Up with
        | full U => exact (hu : False).elim
        | lowRank U1 U2 => exact ⟨W1, W2, U1, U2, rfl, rfl, rfl, rfl⟩

/-- Witness for C4: the default (full-rank) and a both-ranks-set cell, with
matching parameter records. -/
theorem fastGRNN_getVars_layout_witness :
    (∃ W U, ProjParams.full (Tensor.scalar 1) = .full W ∧
        ProjParams.full (Tensor.scalar 2) = .full U ∧
        FastGRNNCell.getVars ⟨.full (Tensor.scalar 1), .full (Tensor.scalar 2),
            Tensor.scalar 3, Tensor.scalar 4, Tensor.scalar 5, Tensor.scalar 6⟩ =
          [W, U, Tensor.scalar 3, Tensor.scalar 4, Tensor.scalar 5, Tensor.scalar 6] ∧
        (FastGRNNCell.getVars ⟨.full (Tensor.scalar 1), .full (Tensor.scalar 2),
            Tensor.scalar 3, Tensor.scalar 4, Tensor.scalar 5, Tensor.scalar 6⟩).length = 6) :=
  (fastGRNN_getVars_layout.2 ⟨4, "sigmoid", "tanh", none, none, 1, -4, "FastGRNN"⟩
      ⟨.full (Tensor.scalar 1), .full (Tensor.scalar 2), Tensor.scalar 3,
        Tensor.scalar 4, Tensor.scalar 5, Tensor.scalar 6⟩
      trivial trivial).1 rfl rfl

/-- C10: `FastRNNCell.getVars` holds exactly 5 tensors (W, U, B_h, alpha,
beta) in the full-rank configuration, exactly 7 (W1, W2, U1, U2, B_h, alpha,
beta) with both ranks set, and in general its length is
`num_weight_matrices[0] + num_weight_matrices[1] + 3`. -/
theorem fastRNN_getVars_layout :
    (∀ (W U bu al be : Tensor),
      FastRNNCell.getVars ⟨.full W, .full U, bu, al, be⟩ = [W, U, bu, al, be]) ∧
    (∀ (W1 W2 U1 U2 bu al be : Tensor),
      FastRNNCell.getVars ⟨.lowRank W1 W2, .lowRank U1 U2, bu, al, be⟩ =
        [W1, W2, U1, U2, bu, al, be]) ∧
    (∀ (c : FastRNNCell) (p : FastRNNParams),
      p.Wp.matchesRank c.wRank → p.Up.matchesRank c.uRank →
      (FastRNNCell.getVars p).length =
        c.num_weight_matrices.1 + c.num_weight_matrices.2 + 3) := by
  refine ⟨fun _ _ _ _ _ => rfl, fun _ _ _ _ _ _ _ => rfl, ?_⟩
  intro c p hw hu
  obtain ⟨Wp, Up, bu, al, be⟩ := p
  have hW : Wp.vars.length = 1 + (if c.wRank.isSome then 1 else 0) := by
    cases Wp with
    | full W =>
      cases hcw : c.wRank with
      | none => simp [ProjParams.vars]
      | some r => rw [hcw] at hw; exact (hw : False).elim
    | lowRank M1 M2 =>
      cases hcw : c.wRank with
      | none => rw [hcw] at hw; exact (hw : False).elim
      | some r => simp [ProjParams.vars]
  have hU : Up.vars.length = 1 + (if c.uRank.isSome then 1 else 0) := by
    cases Up with
    | full U =>
      cases hcu : c.uRank with
      | none => simp [ProjParams.vars]
      | some r => rw [hcu] at hu; exact (hu : False).elim
    | lowRank M1 M2 =>
      cases hcu : c.uRank with
      | none => rw [hcu] at hu; exact (hu : False).elim
      | some r => simp [ProjParams.vars]
  simp only [FastRNNCell.getVars, FastRNNCell.num_weight_matrices, List.length_append,
    hW, hU]
  simp

/-- Witness for C10 with a low-rank parameter record matching a
both-ranks-set configuration. -/
theorem fastRNN_getVars_layout_witness :
    (FastRNNCell.getVars ⟨.lowRank (Tensor.scalar 1) (Tensor.scalar 2),
        .lowRank (Tensor.scalar 3) (Tensor.scalar 4), Tensor.scalar 5,
        Tensor.scalar 6, Tensor.scalar 7⟩).length =
      (FastRNNCell.num_weight_matrices ⟨4, "tanh", some 1, some 2, -3, 3, "FastRNN"⟩).1 +
        (FastRNNCell.num_weight_matrices ⟨4, "tanh", some 1, some 2, -3, 3, "FastRNN"⟩).2 + 3 :=
  fastRNN_getVars_layout.2.2 ⟨4, "tanh", some 1, some 2, -3, 3, "FastRNN"⟩
    ⟨.lowRank (Tensor.scalar 1) (Tensor.scalar 2), .lowRank (Tensor.scalar 3) (Tensor.scalar 4),
      Tensor.scalar 5, Tensor.scalar 6, Tensor.scalar 7⟩ trivial trivial

/-- C6 (bug witness): `EMI_GRU.addBaseAssignOps` asserts the supplied list
has length 2 but then reads indices 0 through 3, so every list passing its
own length check hits an out-of-range read; and the FastRNN/FastGRNN
wrappers perform no length check at all, so a too-short list fails with a
bare index error rather than an expected-versus-actual count report. -/
theorem addBaseAssignOps_index_bug :
    (∀ l : List ℚ, l.length = 2 → EMI_GRU.addBaseAssignOps l = Except.error "IndexError") ∧
    (∀ w u : Option ℕ,
      EMI_FastRNN.addBaseAssignOps w u ([] : List ℚ) = Except.error "IndexError") ∧
    (∀ w u : Option ℕ,
      EMI_FastGRNN.addBaseAssignOps w u ([] : List ℚ) = Except.error "IndexError") := by
  refine ⟨?_, ?_, ?_⟩
  · intro l h
    match l, h with
    | [a, b], _ => rfl
  · intro w u
    cases w <;> cases u <;> rfl
  · intro w u
    cases w <;> cases u <;> rfl

/-- Witness for C6: a list of the exact length admitted by the `EMI_GRU`
length check still produces an index error. -/
theorem addBaseAssignOps_index_bug_witness :
    EMI_GRU.addBaseAssignOps [(1 : ℚ), 2] = Except.error "IndexError" :=
  addBaseAssignOps_index_bug.1 [(1 : ℚ), 2] rfl

/-- C7: one FastRNN step on a `[batch, inputDim]` input and `[batch, n]`
state yields an output of shape `[batch, n]`, in every rank configuration. -/
theorem fastRNN_call_shape (ops : MathOps) (c : FastRNNCell) (p : FastRNNParams)
    (inputs state : Tensor) (n : ℕ)
    (hWp : p.Wp.wf inputs.cols n) (hUp : p.Up.wf n n)
    (hsr : state.rows = inputs.rows) (hsc : state.cols = n)
    (hbur : p.bias_update.rows = 1) (hbuc : p.bias_update.cols = n)
    (har : p.alpha.rows = 1) (hac : p.alpha.cols = 1)
    (hbr : p.beta.rows = 1) (hbc : p.beta.cols = 1) :
    (FastRNNCell.call ops c p inputs state).1.rows = inputs.rows ∧
    (FastRNNCell.call ops c p inputs state).1.cols = n := by
  have hwr : (p.Wp.apply inputs).rows = inputs.rows := ProjParams.apply_rows _ _
  have hwc : (p.Wp.apply inputs).cols = n := ProjParams.apply_cols _ _ _ hWp _
  have hur2 : (p.Up.apply state).rows = inputs.rows := by
    rw [ProjParams.apply_rows]; exact hsr
  have huc : (p.Up.apply state).cols = n := ProjParams.apply_cols _ _ _ hUp _
  have hpr : (FastRNNCell.preComp p inputs state).rows = inputs.rows := by
    rw [FastRNNCell.preComp, Tensor.add_def, Tensor.bop_rows, hwr, hur2, bdim_self]
  have hpc : (FastRNNCell.preComp p inputs state).cols = n := by
    rw [FastRNNCell.preComp, Tensor.add_def, Tensor.bop_cols, hwc, huc, bdim_self]
  have hcr : (FastRNNCell.candidate ops c p inputs state).rows = inputs.rows := by
    rw [FastRNNCell.candidate, gen_non_linearity_rows, Tensor.add_def, Tensor.bop_rows,
      hpr, hbur, bdim_one_right]
  have hcc : (FastRNNCell.candidate ops c p inputs state).cols = n := by
    rw [FastRNNCell.candidate, gen_non_linearity_cols, Tensor.add_def, Tensor.bop_cols,
      hpc, hbuc, bdim_self]
  constructor
  · show (FastRNNCell.newState ops c p inputs state).rows = inputs.rows
    rw [FastRNNCell.newState]
    simp only [Tensor.add_def, Tensor.mul_def, Tensor.bop_rows, Tensor.map_rows,
      hbr, hsr, har, hcr, bdim_one_left, bdim_self]
  · show (FastRNNCell.newState ops c p inputs state).cols = n
    rw [FastRNNCell.newState]
    simp only [Tensor.add_def, Tensor.mul_def, Tensor.bop_cols, Tensor.map_cols,
      hbc, hsc, hac, hcc, bdim_one_left, bdim_self]

/-- Witness for C7 on 1-by-1 tensors in the full-rank configuration. -/
theorem fastRNN_call_shape_witness :
    (FastRNNCell.call idOps ⟨1, "tanh", none, none, -3, 3, "FastRNN"⟩
        ⟨.full (Tensor.scalar 5), .full (Tensor.scalar 7), Tensor.scalar 1,
          Tensor.scalar (-3), Tensor.scalar 3⟩ (Tensor.scalar 2) (Tensor.scalar 3)).1.rows = 1 ∧
    (FastRNNCell.call idOps ⟨1, "tanh", none, none, -3, 3, "FastRNN"⟩
        ⟨.full (Tensor.scalar 5), .full (Tensor.scalar 7), Tensor.scalar 1,
          Tensor.scalar (-3), Tensor.scalar 3⟩ (Tensor.scalar 2) (Tensor.scalar 3)).1.cols = 1 :=
  fastRNN_call_shape idOps ⟨1, "tanh", none, none, -3, 3, "FastRNN"⟩
    ⟨.full (Tensor.scalar 5), .full (Tensor.scalar 7), Tensor.scalar 1,
      Tensor.scalar (-3), Tensor.scalar 3⟩ (Tensor.scalar 2) (Tensor.scalar 3) 1
    ⟨rfl, rfl⟩ ⟨rfl, rfl⟩ rfl rfl rfl rfl rfl rfl rfl rfl

/-- C2: one FastRNN step returns `newState = sigmoid(beta) * prevState +
sigmoid(alpha) * candidate` where the candidate is
`updateNonlinearity(wComp + uComp + biasUpdate)`, the two sigmoid factors
are the `[1,1]` scalars broadcast over every entry, and the returned output
equals the returned new state. -/
theorem fastRNN_call_formula (ops : MathOps) (c : FastRNNCell) (p : FastRNNParams)
    (inputs state : Tensor) (n : ℕ)
    (hWp : p.Wp.wf inputs.cols n) (hUp : p.Up.wf n n)
    (hsr : state.rows = inputs.rows) (hsc : state.cols = n)
    (hbur : p.bias_update.rows = 1) (hbuc : p.bias_update.cols = n)
    (har : p.alpha.rows = 1) (hac : p.alpha.cols = 1)
    (hbr : p.beta.rows = 1) (hbc : p.beta.cols = 1)
    (i j : ℕ) (hi : i < inputs.rows) (hj : j < n) :
    (FastRNNCell.call ops c p inputs state).1 = (FastRNNCell.call ops c p inputs state).2 ∧
    (FastRNNCell.call ops c p inputs state).1.entry i j =
      ops.sigmoid (p.beta.entry 0 0) * state.entry i j +
        ops.sigmoid (p.alpha.entry 0 0) *
          gen_non_linearityS ops ((p.Wp.apply inputs).entry i j +
            (p.Up.apply state).entry i j + p.bias_update.entry 0 j)
            c.update_non_linearity := by
  refine ⟨rfl, ?_⟩
  have hwr : (p.Wp.apply inputs).rows = inputs.rows := ProjParams.apply_rows _ _
  have hwc : (p.Wp.apply inputs).cols = n := ProjParams.apply_cols _ _ _ hWp _
  have hur2 : (p.Up.apply state).rows = inputs.rows := by
    rw [ProjParams.apply_rows]; exact hsr
  have huc : (p.Up.apply state).cols = n := ProjParams.apply_cols _ _ _ hUp _
  have hpr : (FastRNNCell.preComp p inputs state).rows = inputs.rows := by
    rw [FastRNNCell.preComp, Tensor.add_def, Tensor.bop_rows, hwr, hur2, bdim_self]
  have hpc : (FastRNNCell.preComp p inputs state).cols = n := by
    rw [FastRNNCell.preComp, Tensor.add_def, Tensor.bop_cols, hwc, huc, bdim_self]
  have hpe : (FastRNNCell.preComp p inputs state).entry i j =
      (p.Wp.apply inputs).entry i j + (p.Up.apply state).entry i j := by
    rw [FastRNNCell.preComp, Tensor.add_def]
    exact Tensor.bop_entry_same _ _ _ i j (by rw [hur2, hwr]) (by rw [huc, hwc])
      (by rw [hwr]; exact hi) (by rw [hwc]; exact hj)
  have hcr : (FastRNNCell.candidate ops c p inputs state).rows = inputs.rows := by
    rw [FastRNNCell.candidate, gen_non_linearity_rows, Tensor.add_def, Tensor.bop_rows,
      hpr, hbur, bdim_one_right]
  have hcc : (FastRNNCell.candidate ops c p inputs state).cols = n := by
    rw [FastRNNCell.candidate, gen_non_linearity_cols, Tensor.add_def, Tensor.bop_cols,
      hpc, hbuc, bdim_self]
  have hce : (FastRNNCell.candidate ops c p inputs state).entry i j =
      gen_non_linearityS ops ((p.Wp.apply inputs).entry i j + (p.Up.apply state).entry i j +
        p.bias_update.entry 0 j) c.update_non_linearity := by
    rw [FastRNNCell.candidate, gen_non_linearity_entry, Tensor.add_def,
      Tensor.bop_entry_rowvec _ _ _ i j hbur (by rw [hbuc, hpc]) (by rw [hpr]; exact hi)
        (by rw [hpc]; exact hj), hpe]
  have hXr : (p.beta.map ops.sigmoid * state).rows = inputs.rows := by
    rw [Tensor.mul_def, Tensor.bop_rows, Tensor.map_rows, hbr, hsr, bdim_one_left]
  have hXc : (p.beta.map ops.sigmoid * state).cols = n := by
    rw [Tensor.mul_def, Tensor.bop_cols, Tensor.map_cols, hbc, hsc, bdim_one_left]
  have hXe : (p.beta.map ops.sigmoid * state).entry i j =
      ops.sigmoid (p.beta.entry 0 0) * state.entry i j := by
    rw [Tensor.mul_def]
    exact Tensor.bop_entry_scalar_left _ _ _ i j (by rw [Tensor.map_rows, hbr])
      (by rw [Tensor.map_cols, hbc]) (by rw [hsr]; exact hi) (by rw [hsc]; exact hj)
  have hYr : (p.alpha.map ops.sigmoid * FastRNNCell.candidate ops c p inputs state).rows =
      inputs.rows := by
    rw [Tensor.mul_def, Tensor.bop_rows, Tensor.map_rows, har, hcr, bdim_one_left]
  have hYc : (p.alpha.map ops.sigmoid * FastRNNCell.candidate ops c p inputs state).cols =
      n := by
    rw [Tensor.mul_def, Tensor.bop_cols, Tensor.map_cols, hac, hcc, bdim_one_left]
  have hYe : (p.alpha.map ops.sigmoid * FastRNNCell.candidate ops c p inputs state).entry i j =
      ops.sigmoid (p.alpha.entry 0 0) *
        (FastRNNCell.candidate ops c p inputs state).entry i j := by
    rw [Tensor.mul_def]
    exact Tensor.bop_entry_scalar_left _ _ _ i j (by rw [Tensor.map_rows, har])
      (by rw [Tensor.map_cols, hac]) (by rw [hcr]; exact hi) (by rw [hcc]; exact hj)
  show (FastRNNCell.newState ops c p inputs state).entry i j = _
  rw [FastRNNCell.newState, Tensor.add_def,
    Tensor.bop_entry_same _ _ _ i j (by rw [hYr, hXr]) (by rw [hYc, hXc])
      (by rw [hXr]; exact hi) (by rw [hXc]; exact hj),
    hXe, hYe, hce]

/-- Witness for C2 on 1-by-1 tensors: the step evaluates to
`3 * 3 + (-3) * 32 = -87` under identity activations. -/
theorem fastRNN_call_formula_witness :
    (FastRNNCell.call idOps ⟨1, "tanh", none, none, -3, 3, "FastRNN"⟩
        ⟨.full (Tensor.scalar 5), .full (Tensor.scalar 7), Tensor.scalar 1,
          Tensor.scalar (-3), Tensor.scalar 3⟩ (Tensor.scalar 2) (Tensor.scalar 3)).1 =
      (FastRNNCell.call idOps ⟨1, "tanh", none, none, -3, 3, "FastRNN"⟩
        ⟨.full (Tensor.scalar 5), .full (Tensor.scalar 7), Tensor.scalar 1,
          Tensor.scalar (-3), Tensor.scalar 3⟩ (Tensor.scalar 2) (Tensor.scalar 3)).2 ∧
    (FastRNNCell.call idOps ⟨1, "tanh", none, none, -3, 3, "FastRNN"⟩
        ⟨.full (Tensor.scalar 5), .full (Tensor.scalar 7), Tensor.scalar 1,
          Tensor.scalar (-3), Tensor.scalar 3⟩ (Tensor.scalar 2) (Tensor.scalar 3)).1.entry 0 0 =
      -87 := by
  have h := fastRNN_call_formula idOps ⟨1, "tanh", none, none, -3, 3, "FastRNN"⟩
    ⟨.full (Tensor.scalar 5), .full (Tensor.scalar 7), Tensor.scalar 1,
      Tensor.scalar (-3), Tensor.scalar 3⟩ (Tensor.scalar 2) (Tensor.scalar 3) 1
    ⟨rfl, rfl⟩ ⟨rfl, rfl⟩ rfl rfl rfl rfl rfl rfl rfl rfl 0 0 (by decide) (by decide)
  refine ⟨h.1, ?_⟩
  rw [h.2]
  norm_num [idOps, gen_non_linearityS, ProjParams.apply, Tensor.matmul, Tensor.scalar,
    Finset.sum_range_one]

/-- C1: one FastGRNN step computes `preComp = wComp + uComp`, the per-unit
gate `z = gateNonlinearity(preComp + biasGate)` (depending on the hidden
index through `biasGate`, not a scalar), the candidate
`c = updateNonlinearity(preComp + biasUpdate)`, and returns
`newState = z * state + (sigmoid(zeta) * (1 - z) + sigmoid(nu)) * c`, with
the returned output equal to the returned new state. -/
theorem fastGRNN_call_formula (ops : MathOps) (c : FastGRNNCell) (p : FastGRNNParams)
    (inputs state : Tensor) (n : ℕ)
    (hWp : p.Wp.wf inputs.cols n) (hUp : p.Up.wf n n)
    (hsr : state.rows = inputs.rows) (hsc : state.cols = n)
    (hbgr : p.bias_gate.rows = 1) (hbgc : p.bias_gate.cols = n)
    (hbur : p.bias_update.rows = 1) (hbuc : p.bias_update.cols = n)
    (hzr : p.zeta.rows = 1) (hzc : p.zeta.cols = 1)
    (hnr : p.nu.rows = 1) (hnc : p.nu.cols = 1)
    (i j : ℕ) (hi : i < inputs.rows) (hj : j < n) :
    (FastGRNNCell.call ops c p inputs state).1 = (FastGRNNCell.call ops c p inputs state).2 ∧
    (FastGRNNCell.call ops c p inputs state).1.entry i j =
      gen_non_linearityS ops ((p.Wp.apply inputs).entry i j + (p.Up.apply state).entry i j +
          p.bias_gate.entry 0 j) c.gate_non_linearity * state.entry i j +
        (ops.sigmoid (p.zeta.entry 0 0) *
            (1 - gen_non_linearityS ops ((p.Wp.apply inputs).entry i j +
              (p.Up.apply state).entry i j + p.bias_gate.entry 0 j) c.gate_non_linearity) +
          ops.sigmoid (p.nu.entry 0 0)) *
        gen_non_linearityS ops ((p.Wp.apply inputs).entry i j + (p.Up.apply state).entry i j +
          p.bias_update.entry 0 j) c.update_non_linearity := by
  refine ⟨rfl, ?_⟩
  have hwr : (p.Wp.apply inputs).rows = inputs.rows := ProjParams.apply_rows _ _
  have hwc : (p.Wp.apply inputs).cols = n := ProjParams.apply_cols _ _ _ hWp _
  have hur2 : (p.Up.apply state).rows = inputs.rows := by
    rw [ProjParams.apply_rows]; exact hsr
  have huc : (p.Up.apply state).cols = n := ProjParams.apply_cols _ _ _ hUp _
  have hpr : (FastGRNNCell.preComp p inputs state).rows = inputs.rows := by
    rw [FastGRNNCell.preComp, Tensor.add_def, Tensor.bop_rows, hwr, hur2, bdim_self]
  have hpc : (FastGRNNCell.preComp p inputs state).cols = n := by
    rw [FastGRNNCell.preComp, Tensor.add_def, Tensor.bop_cols, hwc, huc, bdim_self]
  have hpe : (FastGRNNCell.preComp p inputs state).entry i j =
      (p.Wp.apply inputs).entry i j + (p.Up.apply state).entry i j := by
    rw [FastGRNNCell.preComp, Tensor.add_def]
    exact Tensor.bop_entry_same _ _ _ i j (by rw [hur2, hwr]) (by rw [huc, hwc])
      (by rw [hwr]; exact hi) (by rw [hwc]; exact hj)
  have hZr : (FastGRNNCell.gateZ ops c p inputs state).rows = inputs.rows := by
    rw [FastGRNNCell.gateZ, gen_non_linearity_rows, Tensor.add_def, Tensor.bop_rows,
      hpr, hbgr, bdim_one_right]
  have hZc : (FastGRNNCell.gateZ ops c p inputs state).cols = n := by
    rw [FastGRNNCell.gateZ, gen_non_linearity_cols, Tensor.add_def, Tensor.bop_cols,
      hpc, hbgc, bdim_self]
  have hZe : (FastGRNNCell.gateZ ops c p inputs state).entry i j =
      gen_non_linearityS ops ((p.Wp.apply inputs).entry i j + (p.Up.apply state).entry i j +
        p.bias_gate.entry 0 j) c.gate_non_linearity := by
    rw [FastGRNNCell.gateZ, gen_non_linearity_entry, Tensor.add_def,
      Tensor.bop_entry_rowvec _ _ _ i j hbgr (by rw [hbgc, hpc]) (by rw [hpr]; exact hi)
        (by rw [hpc]; exact hj), hpe]
  have hCr : (FastGRNNCell.candidate ops c p inputs state).rows = inputs.rows := by
    rw [FastGRNNCell.candidate, gen_non_linearity_rows, Tensor.add_def, Tensor.bop_rows,
      hpr, hbur, bdim_one_right]
  have hCc : (FastGRNNCell.candidate ops c p inputs state).cols = n := by
    rw [FastGRNNCell.candidate, gen_non_linearity_cols, Tensor.add_def, Tensor.bop_cols,
      hpc, hbuc, bdim_self]
  have hCe : (FastGRNNCell.candidate ops c p inputs state).entry i j =
      gen_non_linearityS ops ((p.Wp.apply inputs).entry i j + (p.Up.apply state).entry i j +
        p.bias_update.entry 0 j) c.update_non_linearity := by
    rw [FastGRNNCell.candidate, gen_non_linearity_entry, Tensor.add_def,
      Tensor.bop_entry_rowvec _ _ _ i j hbur (by rw [hbuc, hpc]) (by rw [hpr]; exact hi)
        (by rw [hpc]; exact hj), hpe]
  set Z := FastGRNNCell.gateZ ops c p inputs state with hZdef
  set CC := FastGRNNCell.candidate ops c p inputs state with hCdef
  have hXr : (Z * state).rows = inputs.rows := by
    rw [Tensor.mul_def, Tensor.bop_rows, hZr, hsr, bdim_self]
  have hXc : (Z * state).cols = n := by
    rw [Tensor.mul_def, Tensor.bop_cols, hZc, hsc, bdim_self]
  have hXe : (Z * state).entry i j = Z.entry i j * state.entry i j := by
    rw [Tensor.mul_def]
    exact Tensor.bop_entry_same _ _ _ i j (by rw [hsr, hZr]) (by rw [hsc, hZc])
      (by rw [hZr]; exact hi) (by rw [hZc]; exact hj)
  have hT1r : (Tensor.scalar 1 - Z).rows = inputs.rows := by
    rw [Tensor.sub_def, Tensor.bop_rows, hZr]
    exact bdim_one_left _
  have hT1c : (Tensor.scalar 1 - Z).cols = n := by
    rw [Tensor.sub_def, Tensor.bop_cols, hZc]
    exact bdim_one_left _
  have hT1e : (Tensor.scalar 1 - Z).entry i j = 1 - Z.entry i j := by
    rw [Tensor.sub_def]
    exact Tensor.bop_entry_scalar_left _ _ _ i j rfl rfl (by rw [hZr]; exact hi)
      (by rw [hZc]; exact hj)
  have hT2r : (p.zeta.map ops.sigmoid * (Tensor.scalar 1 - Z)).rows = inputs.rows := by
    rw [Tensor.mul_def, Tensor.bop_rows, Tensor.map_rows, hzr, hT1r]
    exact bdim_one_left _
  have hT2c : (p.zeta.map ops.sigmoid * (Tensor.scalar 1 - Z)).cols = n := by
    rw [Tensor.mul_def, Tensor.bop_cols, Tensor.map_cols, hzc, hT1c]
    exact bdim_one_left _
  have hT2e : (p.zeta.map ops.sigmoid * (Tensor.scalar 1 - Z)).entry i j =
      ops.sigmoid (p.zeta.entry 0 0) * (1 - Z.entry i j) := by
    rw [Tensor.mul_def,
      Tensor.bop_entry_scalar_left _ _ _ i j (by rw [Tensor.map_rows, hzr])
        (by rw [Tensor.map_cols, hzc]) (by rw [hT1r]; exact hi) (by rw [hT1c]; exact hj),
      hT1e]
    rfl
  have hT3r : (p.zeta.map ops.sigmoid * (Tensor.scalar 1 - Z) +
      p.nu.map ops.sigmoid).rows = inputs.rows := by
    rw [Tensor.add_def, Tensor.bop_rows, hT2r, Tensor.map_rows, hnr, bdim_one_right]
  have hT3c : (p.zeta.map ops.sigmoid * (Tensor.scalar 1 - Z) +
      p.nu.map ops.sigmoid).cols = n := by
    rw [Tensor.add_def, Tensor.bop_cols, hT2c, Tensor.map_cols, hnc, bdim_one_right]
  have hT3e : (p.zeta.map ops.sigmoid * (Tensor.scalar 1 - Z) +
      p.nu.map ops.sigmoid).entry i j =
      ops.sigmoid (p.zeta.entry 0 0) * (1 - Z.entry i j) + ops.sigmoid (p.nu.entry 0 0) := by
    rw [Tensor.add_def,
      Tensor.bop_entry_scalar_right _ _ _ i j (by rw [Tensor.map_rows, hnr])
        (by rw [Tensor.map_cols, hnc]) (by rw [hT2r]; exact hi) (by rw [hT2c]; exact hj),
      hT2e]
    rfl
  have hT4r : ((p.zeta.map ops.sigmoid * (Tensor.scalar 1 - Z) + p.nu.map ops.sigmoid) *
      CC).rows = inputs.rows := by
    rw [Tensor.mul_def, Tensor.bop_rows, hT3r, hCr, bdim_self]
  have hT4c : ((p.zeta.map ops.sigmoid * (Tensor.scalar 1 - Z) + p.nu.map ops.sigmoid) *
      CC).cols = n := by
    rw [Tensor.mul_def, Tensor.bop_cols, hT3c, hCc, bdim_self]
  have hT4e : ((p.zeta.map ops.sigmoid * (Tensor.scalar 1 - Z) + p.nu.map ops.sigmoid) *
      CC).entry i j =
      (ops.sigmoid (p.zeta.entry 0 0) * (1 - Z.entry i j) + ops.sigmoid (p.nu.entry 0 0)) *
        CC.entry i j := by
    rw [Tensor.mul_def,
      Tensor.bop_entry_same _ _ _ i j (by rw [hCr, hT3r]) (by rw [hCc, hT3c])
        (by rw [hT3r]; exact hi) (by rw [hT3c]; exact hj),
      hT3e]
  show (FastGRNNCell.newState ops c p inputs state).entry i j = _
  rw [FastGRNNCell.newState, ← hZdef, ← hCdef, Tensor.add_def,
    Tensor.bop_entry_same _ _ _ i j (by rw [hT4r, hXr]) (by rw [hT4c, hXc])
      (by rw [hXr]; exact hi) (by rw [hXc]; exact hj),
    hXe, hT4e, hZe, hCe]

/-- Witness for C1 on 1-by-1 tensors: the step evaluates to
`32 * 3 + (1 * (1 - 32) + (-4)) * 32 = -1024` under identity activations. -/
theorem fastGRNN_call_formula_witness :
    (FastGRNNCell.call idOps ⟨1, "sigmoid", "tanh", none, none, 1, -4, "FastGRNN"⟩
        ⟨.full (Tensor.scalar 5), .full (Tensor.scalar 7), Tensor.scalar 1, Tensor.scalar 1,
          Tensor.scalar 1, Tensor.scalar (-4)⟩ (Tensor.scalar 2) (Tensor.scalar 3)).1 =
      (FastGRNNCell.call idOps ⟨1, "sigmoid", "tanh", none, none, 1, -4, "FastGRNN"⟩
        ⟨.full (Tensor.scalar 5), .full (Tensor.scalar 7), Tensor.scalar 1, Tensor.scalar 1,
          Tensor.scalar 1, Tensor.scalar (-4)⟩ (Tensor.scalar 2) (Tensor.scalar 3)).2 ∧
    (FastGRNNCell.call idOps ⟨1, "sigmoid", "tanh", none, none, 1, -4, "FastGRNN"⟩
        ⟨.full (Tensor.scalar 5), .full (Tensor.scalar 7), Tensor.scalar 1, Tensor.scalar 1,
          Tensor.scalar 1, Tensor.scalar (-4)⟩ (Tensor.scalar 2) (Tensor.scalar 3)).1.entry 0 0 =
      -1024 := by
  have h := fastGRNN_call_formula idOps ⟨1, "sigmoid", "tanh", none, none, 1, -4, "FastGRNN"⟩
    ⟨.full (Tensor.scalar 5), .full (Tensor.scalar 7), Tensor.scalar 1, Tensor.scalar 1,
      Tensor.scalar 1, Tensor.scalar (-4)⟩ (Tensor.scalar 2) (Tensor.scalar 3) 1
    ⟨rfl, rfl⟩ ⟨rfl, rfl⟩ rfl rfl rfl rfl rfl rfl rfl rfl rfl rfl 0 0 (by decide) (by decide)
  refine ⟨h.1, ?_⟩
  rw [h.2]
  norm_num [idOps, gen_non_linearityS, ProjParams.apply, Tensor.matmul, Tensor.scalar,
    Finset.sum_range_one]
